import Mathlib

/-! Shallow embedding of the React chat client: the tool dispatch table
(src/lib/gemini/tools.ts), the Groq streaming client with its tool-call
resubmission loop (src/lib/groq/client.ts), the Gemini client
(createModel and sendMessage), the zustand chat store
(src/stores/chatStore.ts) and the send handler of the chat container
(src/components/chat/ChatContainer.tsx). Network calls, timers and
identifier generation are passed in explicitly: provider responses come
from a script, tool handler payloads from an environment, fresh ids and
timestamps as parameters. -/

namespace ReactChatBot

/-- Tool arguments: the JSON object of a function call, as key/value
pairs. The Groq client parses the accumulated argument text before
dispatch; rounds below carry the already-parsed map. -/
abbrev Args := List (String × String)

/-- Environment oracle for the six tool handlers of
src/lib/gemini/tools.ts. Each handler body wraps platform effects
(fetch, Date, Math.random, dynamic evaluation); the spec declares tool
internals out of scope, so the serialized payload a handler resolves
with is supplied by this environment. -/
structure ToolEnv where
  webSearch : Args → String
  currentTime : Args → String
  calculate : Args → String
  weather : Args → String
  stockPrice : Args → String
  generateImage : Args → String

/-- Environment whose handlers all resolve to fixed payloads. -/
def defaultToolEnv : ToolEnv :=
  { webSearch := fun _ => "search-result"
    currentTime := fun _ => "time-result"
    calculate := fun _ => "calc-result"
    weather := fun _ => "weather-result"
    stockPrice := fun _ => "stock-result"
    generateImage := fun _ => "image-result" }

/-- The executeToolCall dispatch of src/lib/gemini/tools.ts: a switch on
the tool name whose default branch throws an Error (modelled by
Except.error) instead of returning a structured failure payload. -/
def executeToolCall (env : ToolEnv) (name : String) (args : Args) : Except String String :=
  match name with
  | "web_search" => .ok (env.webSearch args)
  | "get_current_time" => .ok (env.currentTime args)
  | "calculate" => .ok (env.calculate args)
  | "get_weather" => .ok (env.weather args)
  | "get_stock_price" => .ok (env.stockPrice args)
  | "generate_image" => .ok (env.generateImage args)
  | _ => .error ("Unknown tool: " ++ name)

/-- The six case labels of the dispatch switch. -/
def registeredToolNames : List String :=
  ["web_search", "get_current_time", "calculate", "get_weather",
   "get_stock_price", "generate_image"]

/-- The handler payload a registered name dispatches to; unregistered
names are mapped to the empty string (never reached through
executeToolCall, whose default branch throws instead). -/
def runHandler (env : ToolEnv) (name : String) (args : Args) : String :=
  match name with
  | "web_search" => env.webSearch args
  | "get_current_time" => env.currentTime args
  | "calculate" => env.calculate args
  | "get_weather" => env.weather args
  | "get_stock_price" => env.stockPrice args
  | "generate_image" => env.generateImage args
  | _ => ""

/-- Whether an Except value is a success. -/
def exceptOk : Except String String → Bool
  | .ok _ => true
  | .error _ => false

/-- Dispatch characterization: a registered name resolves to its
handler payload; any other name throws the Unknown tool error. -/
theorem executeToolCall_eq (env : ToolEnv) (name : String) (args : Args) :
    executeToolCall env name args =
      if name ∈ registeredToolNames then .ok (runHandler env name args)
      else .error ("Unknown tool: " ++ name) := by
  unfold executeToolCall runHandler registeredToolNames
  split <;> simp_all

/-- Message roles used across the store and the provider clients. -/
inductive Role
  | system
  | user
  | assistant
  | tool
deriving DecidableEq, Repr

/-- A tool-call request as assembled in the Groq client from the
streamed delta.tool_calls fragments, keyed by index: call id, function
name, and the parsed argument object. -/
structure ToolCallReq where
  id : String
  name : String
  arguments : Args
deriving DecidableEq, Repr

/-- One streamed chat-completion response of the Groq API, grouped into
the content deltas in arrival order, the assembled tool-call array, and
the finish reason carried by the closing chunk, if any. -/
structure Round where
  deltas : List String
  toolCalls : List ToolCallReq
  finishReason : Option String
deriving DecidableEq, Repr

/-- A message of the fullMessages array in the Groq client. -/
structure GMsg where
  role : Role
  content : String
  toolCallId : Option String := none
  name : Option String := none
  toolCalls : List ToolCallReq := []
deriving DecidableEq, Repr

/-- An executed call as collected into the toolCalls result array:
name, parsed args, and the serialized handler payload. -/
structure ExecutedCall where
  name : String
  args : Args
  result : String
deriving DecidableEq, Repr

/-- The result object the Groq sendMessage resolves with. -/
structure GroqResult where
  text : String
  toolCalls : List ExecutedCall
  finishReason : Option String
deriving DecidableEq, Repr

/-- One chat.completions.create request of the Groq client: the message
list plus the sampling fields the source passes. The initial request
sends the store temperature and never a top-p; the follow-up requests
inside the tool loop send neither. -/
structure GroqRequest where
  messages : List GMsg
  temperature : Option ℚ
  topP : Option ℚ
deriving DecidableEq, Repr

/-- The slice of the settings store the clients read: system prompt,
temperature and top-p (numbers modelled as rationals; the clients only
forward them and test them for JS falsiness, never compute with them). -/
structure SettingsState where
  systemPrompt : String
  temperature : ℚ
  topP : ℚ
deriving DecidableEq, Repr

/-- Stands for the literal SYSTEM_PROMPT text of
src/lib/gemini/prompts.ts; its exact content is irrelevant to every
claim handled here. -/
def SYSTEM_PROMPT : String := "SYSTEM_PROMPT"

/-- fullMessages setup of the Groq sendMessage: prepend a system
message when none is present, using the store prompt when non-empty
(storeSystemPrompt is a string, so the JS or-else falls back to
SYSTEM_PROMPT exactly when it is empty). -/
def groqFullMessages (cfg : SettingsState) (messages : List GMsg) : List GMsg :=
  if messages.any fun m => decide (m.role = Role.system) then messages
  else { role := Role.system,
         content := if cfg.systemPrompt = "" then SYSTEM_PROMPT else cfg.systemPrompt } :: messages

/-- The initial create call: messages, the store temperature, streamed;
no top-p field exists in the source request. -/
def groqInitialRequest (cfg : SettingsState) (msgs : List GMsg) : GroqRequest :=
  { messages := msgs, temperature := some cfg.temperature, topP := none }

/-- The follow-up create call inside the tool loop: only messages,
model and stream are passed, so neither temperature nor top-p. -/
def groqFollowUpRequest (msgs : List GMsg) : GroqRequest :=
  { messages := msgs, temperature := none, topP := none }

/-- The role tool message pushed for one executed call; the handler
payload is already serialized, so JSON.stringify is the identity here. -/
def toolMsg (tc : ToolCallReq) (result : String) : GMsg :=
  { role := Role.tool, content := result, toolCallId := some tc.id, name := some tc.name }

/-- The executed-call record for one request under an environment. -/
def execOf (env : ToolEnv) (tc : ToolCallReq) : ExecutedCall :=
  ⟨tc.name, tc.arguments, runHandler env tc.name tc.arguments⟩

/-- Execute one assembled batch in array order: for each call, fire the
onToolCall notification, dispatch through executeToolCall, collect the
executed call and push its tool message. A throw from the dispatch
(unknown tool) aborts the batch like the rethrowing await in the
source; notifications fired before the throw are kept. Returns the
notification trace and either the error or the executed calls paired
with their tool messages. -/
def execBatch (env : ToolEnv) :
    List ToolCallReq → List (String × Args) × Except String (List ExecutedCall × List GMsg)
  | [] => ([], .ok ([], []))
  | tc :: rest =>
    match executeToolCall env tc.name tc.arguments with
    | .error e => ([(tc.name, tc.arguments)], .error e)
    | .ok r =>
      let (trace, restRes) := execBatch env rest
      ((tc.name, tc.arguments) :: trace,
        match restRes with
        | .error e => .error e
        | .ok (ex, ms) => .ok (⟨tc.name, tc.arguments, r⟩ :: ex, toolMsg tc r :: ms))

/-- Everything observable about one Groq sendMessage run: the create
requests issued in order, the onToken deltas in delivery order, the
onToolCall notifications in order, the tool-result message blocks
submitted back per loop iteration, and the resolved result or the
thrown error. -/
structure TurnLog where
  requests : List GroqRequest
  tokens : List String
  toolTrace : List (String × Args)
  submissions : List (List GMsg)
  result : Except String GroqResult
deriving Repr

instance : DecidableEq (Except String GroqResult) := fun a b =>
  match a, b with
  | .ok x, .ok y => decidable_of_iff (x = y) (by simp)
  | .error x, .error y => decidable_of_iff (x = y) (by simp)
  | .ok _, .error _ => isFalse (by simp)
  | .error _, .ok _ => isFalse (by simp)

/-- The assistant message pushed onto fullMessages before a batch of
tool calls is executed: the accumulated text plus the call array. -/
def assistantMsg (fullText : String) (calls : List ToolCallReq) : GMsg :=
  { role := Role.assistant, content := fullText, toolCalls := calls }

/-- The while toolCalls loop of the Groq sendMessage. State: message
list, the current accumulated text, assembled calls and finish reason
(all from the round consumed last), and the executed calls collected so
far; the script supplies the streamed response of each follow-up create
call. The source loop has no iteration bound; recursion here is
structural on the script, and an exhausted script while calls are still
pending stands for a follow-up network call that never resolves (a
modelling artifact no claim relies on). -/
def groqLoop (env : ToolEnv) (script : List Round) (msgs : List GMsg) (fullText : String)
    (calls : List ToolCallReq) (fr : Option String) (executed : List ExecutedCall) : TurnLog :=
  match calls with
  | [] =>
    { requests := [], tokens := [], toolTrace := [], submissions := [],
      result := .ok { text := fullText, toolCalls := executed, finishReason := fr } }
  | _ :: _ =>
    let msgs1 := msgs ++ [assistantMsg fullText calls]
    let (trace, batch) := execBatch env calls
    match batch with
    | .error e =>
      { requests := [], tokens := [], toolTrace := trace, submissions := [], result := .error e }
    | .ok (ex, batchMsgs) =>
      let msgs2 := msgs1 ++ batchMsgs
      match script with
      | [] =>
        { requests := [groqFollowUpRequest msgs2], tokens := [], toolTrace := trace,
          submissions := [batchMsgs], result := .error "provider stream ended" }
      | r :: rest =>
        let out := groqLoop env rest msgs2 (String.join r.deltas) r.toolCalls
          (r.finishReason.orElse fun _ => fr) (executed ++ ex)
        { requests := groqFollowUpRequest msgs2 :: out.requests,
          tokens := r.deltas ++ out.tokens,
          toolTrace := trace ++ out.toolTrace,
          submissions := batchMsgs :: out.submissions,
          result := out.result }

/-- sendMessage of src/lib/groq/client.ts, driven by a script of
streamed responses: the script head answers the initial create call and
each further entry answers one follow-up create call of the tool loop. -/
def groqSendMessage (env : ToolEnv) (cfg : SettingsState) (messages : List GMsg)
    (script : List Round) : TurnLog :=
  let fullMessages := groqFullMessages cfg messages
  match script with
  | [] =>
    { requests := [groqInitialRequest cfg fullMessages], tokens := [], toolTrace := [],
      submissions := [], result := .error "provider stream ended" }
  | r0 :: rest =>
    let out := groqLoop env rest fullMessages (String.join r0.deltas) r0.toolCalls
      r0.finishReason []
    { out with requests := groqInitialRequest cfg fullMessages :: out.requests,
               tokens := r0.deltas ++ out.tokens }

/-- The finish-reason update a consumed round applies: a chunk carrying
a finish reason overwrites the previous value, otherwise it is kept. -/
def frStep (a : Option String) (r : Round) : Option String :=
  r.finishReason.orElse fun _ => a

/-- A batch whose call names are all registered executes fully and in
array order: notification trace, executed calls and tool messages are
the in-order images of the request list. -/
theorem execBatch_spec (env : ToolEnv) (calls : List ToolCallReq)
    (h : ∀ tc ∈ calls, tc.name ∈ registeredToolNames) :
    execBatch env calls =
      (calls.map fun tc => (tc.name, tc.arguments),
       .ok (calls.map (execOf env),
            calls.map fun tc => toolMsg tc (runHandler env tc.name tc.arguments))) := by
  induction calls with
  | nil => rfl
  | cons tc rest ih =>
    have htc : tc.name ∈ registeredToolNames := h tc (by simp)
    have hrest : ∀ t ∈ rest, t.name ∈ registeredToolNames := fun t ht => h t (by simp [ht])
    simp [execBatch, executeToolCall_eq, htc, ih hrest, execOf]

/-- Behaviour of the tool loop on a script that keeps issuing
registered tool calls for the rounds of rs and then stops: every batch
executes in order, one submission block per iteration, and the loop
exits normally with the text of the closing round. -/
theorem groqLoop_spec (env : ToolEnv) (rs : List Round) (rlast : Round) (rest : List Round)
    (msgs : List GMsg) (fullText : String) (calls : List ToolCallReq) (fr : Option String)
    (executed : List ExecutedCall)
    (hcalls : calls ≠ [])
    (hcallsReg : ∀ tc ∈ calls, tc.name ∈ registeredToolNames)
    (hrs : ∀ r ∈ rs, r.toolCalls ≠ [])
    (hrsReg : ∀ r ∈ rs, ∀ tc ∈ r.toolCalls, tc.name ∈ registeredToolNames)
    (hlast : rlast.toolCalls = []) :
    (groqLoop env (rs ++ rlast :: rest) msgs fullText calls fr executed).tokens
        = (rs.map Round.deltas).flatten ++ rlast.deltas
    ∧ (groqLoop env (rs ++ rlast :: rest) msgs fullText calls fr executed).toolTrace
        = ((calls :: rs.map Round.toolCalls).flatten).map (fun tc => (tc.name, tc.arguments))
    ∧ (groqLoop env (rs ++ rlast :: rest) msgs fullText calls fr executed).submissions
        = (calls :: rs.map Round.toolCalls).map
            (fun l => l.map fun tc => toolMsg tc (runHandler env tc.name tc.arguments))
    ∧ (groqLoop env (rs ++ rlast :: rest) msgs fullText calls fr executed).result
        = .ok { text := String.join rlast.deltas,
                toolCalls := executed ++ ((calls :: rs.map Round.toolCalls).flatten).map (execOf env),
                finishReason := (rs ++ [rlast]).foldl frStep fr } := by
  induction rs generalizing msgs fullText calls fr executed with
  | nil =>
    obtain ⟨tc, calls', rfl⟩ : ∃ tc calls', calls = tc :: calls' := by
      cases calls with
      | nil => exact absurd rfl hcalls
      | cons a l => exact ⟨a, l, rfl⟩
    simp [groqLoop, execBatch_spec env _ hcallsReg, hlast, frStep]
  | cons r rs' ih =>
    obtain ⟨tc, calls', rfl⟩ : ∃ tc calls', calls = tc :: calls' := by
      cases calls with
      | nil => exact absurd rfl hcalls
      | cons a l => exact ⟨a, l, rfl⟩
    have hr : r.toolCalls ≠ [] := hrs r (by simp)
    have hrReg : ∀ t ∈ r.toolCalls, t.name ∈ registeredToolNames := hrsReg r (by simp)
    have hrs' : ∀ x ∈ rs', x.toolCalls ≠ [] := fun x hx => hrs x (by simp [hx])
    have hrsReg' : ∀ x ∈ rs', ∀ t ∈ x.toolCalls, t.name ∈ registeredToolNames :=
      fun x hx => hrsReg x (by simp [hx])
    have step := ih (msgs ++ [assistantMsg fullText (tc :: calls')] ++
        ((tc :: calls').map fun t => toolMsg t (runHandler env t.name t.arguments)))
      (String.join r.deltas) r.toolCalls (frStep fr r)
      (executed ++ (tc :: calls').map (execOf env)) hr hrReg hrs' hrsReg'
    simp only [List.map_cons, List.cons_append, List.singleton_append, List.append_assoc,
      List.nil_append, frStep] at step
    simp only [List.cons_append, groqLoop, execBatch_spec env _ hcallsReg]
    refine ⟨?_, ?_, ?_, ?_⟩
    · simp [step.1]
    · simp [step.2.1]
    · simp [step.2.2.1]
    · simp [step.2.2.2, frStep, List.foldl_cons]

/-- Behaviour of the Groq sendMessage on a script of rounds that issue
registered tool calls for every round of rs and none in the closing
round rlast (rounds after the closing one are never requested). -/
theorem groqSendMessage_spec (env : ToolEnv) (cfg : SettingsState) (messages : List GMsg)
    (rs : List Round) (rlast : Round) (rest : List Round)
    (hrs : ∀ r ∈ rs, r.toolCalls ≠ [])
    (hrsReg : ∀ r ∈ rs, ∀ tc ∈ r.toolCalls, tc.name ∈ registeredToolNames)
    (hlast : rlast.toolCalls = []) :
    (groqSendMessage env cfg messages (rs ++ rlast :: rest)).tokens
        = (rs.map Round.deltas).flatten ++ rlast.deltas
    ∧ (groqSendMessage env cfg messages (rs ++ rlast :: rest)).toolTrace
        = ((rs.map Round.toolCalls).flatten).map (fun tc => (tc.name, tc.arguments))
    ∧ (groqSendMessage env cfg messages (rs ++ rlast :: rest)).submissions
        = (rs.map Round.toolCalls).map
            (fun l => l.map fun tc => toolMsg tc (runHandler env tc.name tc.arguments))
    ∧ (groqSendMessage env cfg messages (rs ++ rlast :: rest)).result
        = .ok { text := String.join rlast.deltas,
                toolCalls := ((rs.map Round.toolCalls).flatten).map (execOf env),
                finishReason := (rs ++ [rlast]).foldl frStep none } := by
  cases rs with
  | nil =>
    simp [groqSendMessage, groqLoop, hlast, frStep]
  | cons r0 rs' =>
    have h0 : r0.toolCalls ≠ [] := hrs r0 (by simp)
    have h0reg : ∀ t ∈ r0.toolCalls, t.name ∈ registeredToolNames := hrsReg r0 (by simp)
    have hrs' : ∀ x ∈ rs', x.toolCalls ≠ [] := fun x hx => hrs x (by simp [hx])
    have hrsReg' : ∀ x ∈ rs', ∀ t ∈ x.toolCalls, t.name ∈ registeredToolNames :=
      fun x hx => hrsReg x (by simp [hx])
    have step := groqLoop_spec env rs' rlast rest (groqFullMessages cfg messages)
      (String.join r0.deltas) r0.toolCalls r0.finishReason [] h0 h0reg hrs' hrsReg' hlast
    simp only [List.cons_append, groqSendMessage]
    refine ⟨?_, ?_, ?_, ?_⟩
    · simp [step.1]
    · simp [step.2.1]
    · simp [step.2.2.1]
    · have : frStep none r0 = r0.finishReason := by
        cases h : r0.finishReason <;> simp [frStep, Option.orElse, h]
      simp [step.2.2.2, List.foldl_cons, this]

/-- One (non-streamed) Gemini response: its text, its function calls in
order, and the finish reason of the first candidate. -/
structure GeminiResponse where
  text : String
  functionCalls : List (String × Args)
  finishReason : Option String
deriving DecidableEq, Repr

/-- The result object the Gemini sendMessage resolves with. -/
structure GeminiResult where
  text : String
  toolCalls : List ExecutedCall
  finishReason : Option String
deriving DecidableEq, Repr

/-- Everything observable about one Gemini sendMessage run: the
onToolCall notifications in order, the functionResponse parts of the
follow-up send in order (name and payload), and the resolved result or
thrown error. -/
structure GeminiTurn where
  toolTrace : List (String × Args)
  submitted : List (String × String)
  result : Except String GeminiResult
deriving Repr

/-- Sequential execution of the Gemini function calls: for each call in
order, fire onToolCall, then dispatch; a throw aborts the turn. -/
def execSeq (env : ToolEnv) :
    List (String × Args) → List (String × Args) × Except String (List ExecutedCall)
  | [] => ([], .ok [])
  | fc :: rest =>
    match executeToolCall env fc.1 fc.2 with
    | .error e => ([fc], .error e)
    | .ok r =>
      let (trace, restRes) := execSeq env rest
      (fc :: trace,
        match restRes with
        | .error e => .error e
        | .ok ex => .ok (⟨fc.1, fc.2, r⟩ :: ex))

/-- sendMessage of the Gemini client: one response; when it carries no
function calls its text is returned, otherwise the calls run
sequentially in order, the result parts are mapped in that same order
into a single follow-up send, and the follow-up text is returned. -/
def geminiSendMessage (env : ToolEnv) (first followUp : GeminiResponse) : GeminiTurn :=
  match first.functionCalls with
  | [] =>
    { toolTrace := [], submitted := [],
      result := .ok { text := first.text, toolCalls := [], finishReason := first.finishReason } }
  | _ :: _ =>
    let (trace, batch) := execSeq env first.functionCalls
    match batch with
    | .error e => { toolTrace := trace, submitted := [], result := .error e }
    | .ok ex =>
      { toolTrace := trace,
        submitted := ex.map fun c => (c.name, c.result),
        result := .ok { text := followUp.text, toolCalls := ex,
                        finishReason := followUp.finishReason } }

/-- A call list whose names are all registered executes fully and in
order. -/
theorem execSeq_spec (env : ToolEnv) (fcs : List (String × Args))
    (h : ∀ fc ∈ fcs, fc.1 ∈ registeredToolNames) :
    execSeq env fcs = (fcs, .ok (fcs.map fun fc => ⟨fc.1, fc.2, runHandler env fc.1 fc.2⟩)) := by
  induction fcs with
  | nil => rfl
  | cons fc rest ih =>
    have hfc : fc.1 ∈ registeredToolNames := h fc (by simp)
    have hrest : ∀ t ∈ rest, t.1 ∈ registeredToolNames := fun t ht => h t (by simp [ht])
    simp [execSeq, executeToolCall_eq, hfc, ih hrest]

/-- The generationConfig assembled by createModel in the Gemini client.
Numbers are modelled as rationals: the source only forwards them and
tests top-p for JS falsiness (a number is falsy exactly when it is
zero, NaN aside). -/
structure GenerationConfig where
  temperature : ℚ
  topP : ℚ
  topK : ℕ
  maxOutputTokens : ℕ
deriving DecidableEq, Repr

/-- createModel of the Gemini client: options may override the store
temperature; topP is storeTopP or-else 0.95, so a falsy (zero) stored
top-p is replaced by 0.95; topK is fixed at 64. -/
def geminiGenerationConfig (store : SettingsState) (optionTemperature : Option ℚ)
    (optionMaxOutputTokens : Option ℕ) : GenerationConfig :=
  { temperature := optionTemperature.getD store.temperature
    topP := if store.topP = 0 then 0.95 else store.topP
    topK := 64
    maxOutputTokens := optionMaxOutputTokens.getD 8192 }

/-- Metadata of a store message (src/types/chat.ts MessageMetadata;
sources omitted as no store operation reads them). toolResults holds
the executed-call array the container attaches. -/
structure MessageMetadata where
  toolName : Option String := none
  toolResults : Option (List ExecutedCall) := none
  thinkingTime : Option ℕ := none
  isStreaming : Option Bool := none
  error : Option String := none
deriving DecidableEq, Repr

/-- A store message (src/types/chat.ts Message). -/
structure Message where
  id : String
  role : Role
  content : String
  timestamp : ℕ
  metadata : Option MessageMetadata := none
deriving DecidableEq, Repr

/-- A conversation record (src/types/chat.ts Conversation). -/
structure Conversation where
  id : String
  userId : String
  title : String
  createdAt : ℕ
  updatedAt : ℕ
  messageCount : ℕ
  toolsUsed : List String
  isDeepResearch : Bool
  messages : List Message
deriving DecidableEq, Repr

/-- The chat store state (src/stores/chatStore.ts). -/
structure ChatState where
  conversations : List Conversation
  activeConversationId : Option String
  isGenerating : Bool
  error : Option String
deriving DecidableEq, Repr

/-- The store before anything happens. -/
def initialChatState : ChatState :=
  { conversations := [], activeConversationId := none, isGenerating := false, error := none }

/-- Immer find-and-mutate: apply f to the first element satisfying p,
leave the list unchanged when none does. -/
def updateFirst (p : α → Bool) (f : α → α) : List α → List α
  | [] => []
  | a :: rest => if p a then f a :: rest else a :: updateFirst p f rest

/-- findIndex plus splice(index, 1): drop the first element satisfying
p, leave the list unchanged when none does. -/
def spliceFirst (p : α → Bool) : List α → List α
  | [] => []
  | a :: rest => if p a then rest else a :: spliceFirst p rest

/-- createConversation: a fresh empty conversation is prepended
(unshift) and becomes active; an absent or empty title argument falls
back to the New Chat default. -/
def createConversation (id userId : String) (now : ℕ) (title : Option String)
    (s : ChatState) : ChatState :=
  let t := match title with
    | some t => if t = "" then "New Chat" else t
    | none => "New Chat"
  let c : Conversation :=
    { id := id, userId := userId, title := t, createdAt := now, updatedAt := now,
      messageCount := 0, toolsUsed := [], isDeepResearch := false, messages := [] }
  { s with conversations := c :: s.conversations, activeConversationId := some id }

/-- deleteConversation: splice out the first conversation with the id;
when the active id equals the argument, the first remaining
conversation (or null) becomes active. -/
def deleteConversation (id : String) (s : ChatState) : ChatState :=
  let conversations := spliceFirst (fun c => c.id == id) s.conversations
  let active :=
    if s.activeConversationId = some id then conversations.head?.map Conversation.id
    else s.activeConversationId
  { s with conversations := conversations, activeConversationId := active }

/-- The message fields an addMessage caller supplies
(Omit of id and timestamp). -/
structure MessageData where
  role : Role
  content : String
  metadata : Option MessageMetadata := none
deriving DecidableEq, Repr

/-- The auto-generated title: the first six space-split words, with an
ellipsis when that is shorter than the full content. -/
def autoTitle (content : String) : String :=
  let words := String.intercalate " " ((content.splitOn " ").take 6)
  if words.length < content.length then words ++ "..." else words

/-- The conversation-level effect of addMessage: push the new message,
set messageCount to the new length and updatedAt to now; derive the
title from a first user message; track a metadata toolName in
toolsUsed. -/
def convAddMessage (mid : String) (now : ℕ) (data : MessageData) (c : Conversation) :
    Conversation :=
  let msg : Message :=
    { id := mid, role := data.role, content := data.content, timestamp := now,
      metadata := data.metadata }
  let messages := c.messages ++ [msg]
  let c1 := { c with messages := messages, messageCount := messages.length,
                     updatedAt := now }
  let c2 := if messages.length = 1 ∧ data.role = Role.user
    then { c1 with title := autoTitle data.content } else c1
  match data.metadata with
  | some md =>
    match md.toolName with
    | some tn => if tn ∈ c2.toolsUsed then c2
      else { c2 with toolsUsed := c2.toolsUsed ++ [tn] }
    | none => c2
  | none => c2

/-- addMessage of the chat store; a missing conversation id leaves the
state unchanged. -/
def addMessage (conversationId mid : String) (now : ℕ) (data : MessageData)
    (s : ChatState) : ChatState :=
  let conversations := updateFirst (fun c => c.id == conversationId)
    (convAddMessage mid now data) s.conversations
  { s with conversations := conversations }

/-- A partial update as passed to updateMessage; Object.assign replaces
each present field wholesale (metadata is swapped out, not merged). -/
structure MessageUpdate where
  content : Option String := none
  metadata : Option MessageMetadata := none
deriving DecidableEq, Repr

/-- Object.assign(message, updates). -/
def applyUpdate (u : MessageUpdate) (m : Message) : Message :=
  let m1 := match u.content with
    | some c => { m with content := c }
    | none => m
  match u.metadata with
  | some md => { m1 with metadata := some md }
  | none => m1

/-- The conversation-level effect of updateMessage: assign the update
onto the addressed message. -/
def convUpdate (mid : String) (u : MessageUpdate) (c : Conversation) : Conversation :=
  { c with messages := updateFirst (fun m => m.id == mid) (applyUpdate u) c.messages }

/-- updateMessage: apply the update to the addressed message of the
addressed conversation; neither updatedAt nor messageCount changes. -/
def updateMessage (conversationId mid : String) (u : MessageUpdate) (s : ChatState) : ChatState :=
  let conversations := updateFirst (fun c => c.id == conversationId)
    (convUpdate mid u) s.conversations
  { s with conversations := conversations }

/-- The conversation-level effect of deleteMessage: when the message is
found, splice it out and set messageCount to the new length; otherwise
leave the conversation untouched. -/
def convDeleteMessage (mid : String) (c : Conversation) : Conversation :=
  if c.messages.any (fun m => m.id == mid) then
    let messages := spliceFirst (fun m => m.id == mid) c.messages
    { c with messages := messages, messageCount := messages.length }
  else c

/-- deleteMessage of the chat store. -/
def deleteMessage (conversationId mid : String) (s : ChatState) : ChatState :=
  let conversations := updateFirst (fun c => c.id == conversationId)
    (convDeleteMessage mid) s.conversations
  { s with conversations := conversations }

/-- setGenerating of the chat store. -/
def setGenerating (b : Bool) (s : ChatState) : ChatState :=
  { s with isGenerating := b }

/-- setError of the chat store: it also clears isGenerating. -/
def setError (e : Option String) (s : ChatState) : ChatState :=
  { s with error := e, isGenerating := false }

/-- The fresh ids handleSendMessage may draw (generateId values): one
for a lazily created conversation, one each for the user message, the
streaming assistant placeholder, and the error message. -/
structure SendIds where
  conv : String
  userMsg : String
  assistantMsg : String
  errMsg : String
deriving DecidableEq, Repr

/-- The notice substituted when both the result text and the
accumulated stream are empty. -/
def fallbackNotice : String := "I received an empty response from the AI."

/-- The content written by the final update: result.text or-else the
accumulated fullAssistantText or-else the fixed notice. -/
def finalizeContent (resultText accumulated : String) : String :=
  if resultText = "" then (if accumulated = "" then fallbackNotice else accumulated)
  else resultText

/-- The history projection sent to the provider: role and content of
each stored message. -/
def historyMsg (m : Message) : GMsg :=
  { role := m.role, content := m.content }

/-- The trim applied to the submitted text (String.prototype.trim):
drop leading and trailing whitespace. Implemented structurally on the
character list so that concrete runs evaluate; JS trims a slightly
larger Unicode whitespace class, a difference irrelevant here. -/
def jsTrim (s : String) : String :=
  ⟨((s.data.dropWhile Char.isWhitespace).reverse.dropWhile Char.isWhitespace).reverse⟩

/-- handleSendMessage of ChatContainer.tsx (Groq provider branch).
Trimmed-empty input returns before any state change. Otherwise: ensure
an active conversation (lazily creating one), capture the history
before the user message is added, add the user message, flip the
generating flag and clear the error (the store setError also clears
isGenerating), add the empty streaming placeholder, run the provider
turn — every onToken delta re-writes the placeholder content with the
accumulated text — and then either overwrite the placeholder with the
final content and metadata, or record the error and append a separate
error message, finally clearing the generating flag. -/
def handleSendMessage (env : ToolEnv) (cfg : SettingsState) (ids : SendIds)
    (userId : String) (now elapsed : ℕ) (script : List Round)
    (content : String) (s : ChatState) : ChatState :=
  let text := jsTrim content
  if text = "" then s
  else
    let convAndState : String × ChatState :=
      match s.activeConversationId with
      | some cid => (cid, s)
      | none => (ids.conv, createConversation ids.conv userId now none s)
    let convId := convAndState.1
    let s1 := convAndState.2
    let history :=
      match s1.conversations.find? (fun c => c.id == convId) with
      | some c => c.messages.map historyMsg
      | none => []
    let s2 := addMessage convId ids.userMsg now { role := Role.user, content := text } s1
    let s3 := setError none (setGenerating true s2)
    let s4 := addMessage convId ids.assistantMsg now
      { role := Role.assistant, content := "",
        metadata := some { isStreaming := some true } } s3
    let turn := groqSendMessage env cfg (history ++ [{ role := Role.user, content := text }]) script
    let s5 := (turn.tokens.foldl
      (fun acc tok =>
        let t := acc.1 ++ tok
        (t, updateMessage convId ids.assistantMsg { content := some t } acc.2))
      ("", s4)).2
    match turn.result with
    | .ok res =>
      let s6 := updateMessage convId ids.assistantMsg
        { content := some (finalizeContent res.text (String.join turn.tokens)),
          metadata := some { thinkingTime := some elapsed,
                             toolName := res.toolCalls.head?.map ExecutedCall.name,
                             toolResults := some res.toolCalls,
                             isStreaming := some false } } s5
      setGenerating false s6
    | .error e =>
      let s6 := setError (some e) s5
      let s7 := addMessage convId ids.errMsg now
        { role := Role.assistant,
          content := "Error: " ++ e ++ ". Please check your API keys and connection.",
          metadata := some { error := some e } } s6
      setGenerating false s7

/-- Folding string concatenation from any accumulator appends the join
of the list. -/
theorem strFoldl (ts : List String) :
    ∀ x : String, ts.foldl (fun a b => a ++ b) x = x ++ String.join ts := by
  induction ts with
  | nil => intro x; simp [String.join]
  | cons t ts ih =>
    intro x
    have hj : String.join (t :: ts) = t ++ String.join ts := by
      show List.foldl (fun a b => a ++ b) ("" ++ t) ts = _
      rw [ih]; rfl
    rw [List.foldl_cons, ih, hj, String.append_assoc]

/-- String.join distributes over cons. -/
theorem strJoinCons (t : String) (ts : List String) :
    String.join (t :: ts) = t ++ String.join ts := by
  show List.foldl (fun a b => a ++ b) ("" ++ t) ts = _
  rw [strFoldl]; rfl

/-- Pointwise equal functions give equal updateFirst results. -/
theorem updateFirst_congr (p : α → Bool) (f g : α → α) (h : ∀ a, f a = g a) :
    ∀ l : List α, updateFirst p f l = updateFirst p g l
  | [] => rfl
  | a :: rest => by
    by_cases hp : p a <;> simp [updateFirst, hp, h a, updateFirst_congr p f g h rest]

/-- Two passes of updateFirst at the same predicate compose, provided
the first pass preserves the predicate. -/
theorem updateFirst_updateFirst (p : α → Bool) (f g : α → α) (hp : ∀ a, p (g a) = p a) :
    ∀ l : List α, updateFirst p f (updateFirst p g l) = updateFirst p (fun a => f (g a)) l
  | [] => rfl
  | a :: rest => by
    by_cases h : p a
    · simp [updateFirst, h, hp a]
    · simp [updateFirst, h, hp a, updateFirst_updateFirst p f g hp rest]

/-- Object.assign never changes the message id. -/
theorem applyUpdate_id (u : MessageUpdate) (m : Message) : (applyUpdate u m).id = m.id := by
  obtain ⟨uc, um⟩ := u
  cases uc <;> cases um <;> rfl

/-- An update carrying both fields overwrites whatever an earlier
update wrote. -/
theorem applyUpdate_full (c2 : String) (md : MessageMetadata) (u1 : MessageUpdate)
    (m : Message) :
    applyUpdate { content := some c2, metadata := some md } (applyUpdate u1 m)
      = applyUpdate { content := some c2, metadata := some md } m := by
  obtain ⟨uc, um⟩ := u1
  cases uc <;> cases um <;> rfl

/-- A content-only update overwrites an earlier content-only update. -/
theorem applyUpdate_content (c1 c2 : String) (m : Message) :
    applyUpdate { content := some c2 } (applyUpdate { content := some c1 } m)
      = applyUpdate { content := some c2 } m := rfl

/-- Updates to the same message compose whenever the second update
pointwise absorbs the first. -/
theorem updateMessage_absorb (cid mid : String) (u1 u2 : MessageUpdate) (s : ChatState)
    (h : ∀ m, applyUpdate u2 (applyUpdate u1 m) = applyUpdate u2 m) :
    updateMessage cid mid u2 (updateMessage cid mid u1 s) = updateMessage cid mid u2 s := by
  unfold updateMessage
  simp only
  rw [updateFirst_updateFirst (fun c => c.id == cid) (convUpdate mid u2) (convUpdate mid u1)
    (fun c => rfl)]
  refine congrArg (fun l => { s with conversations := l }) ?_
  refine updateFirst_congr _ _ _ (fun c => ?_) s.conversations
  unfold convUpdate
  simp only
  rw [updateFirst_updateFirst (fun m => m.id == mid) (applyUpdate u2) (applyUpdate u1)
    (fun m => by simp only []; rw [applyUpdate_id])]
  exact congrArg (fun l => { c with messages := l }) (updateFirst_congr _ _ _ h c.messages)

/-- The onToken fold rewrites the placeholder content to the
accumulated prefix after each delta; its net effect is a single content
update with the full accumulated text (or nothing for an empty
stream). -/
theorem tokenFold_run (cid mid : String) (tokens : List String) :
    ∀ (acc : String) (s : ChatState),
      (tokens.foldl
        (fun acc tok =>
          let t := acc.1 ++ tok
          (t, updateMessage cid mid { content := some t } acc.2))
        (acc, s)).2
      = if tokens = [] then s
        else updateMessage cid mid { content := some (acc ++ String.join tokens) } s := by
  induction tokens with
  | nil => intro acc s; rfl
  | cons t ts ih =>
    intro acc s
    simp only [List.foldl_cons, ih]
    by_cases h : ts = []
    · subst h
      simp [strJoinCons, String.join]
    · simp only [h, if_neg, reduceCtorEq, ite_false]
      rw [updateMessage_absorb _ _ _ _ _ (fun m => applyUpdate_content _ _ m)]
      rw [strJoinCons, ← String.append_assoc]

/-- A final update carrying content and metadata makes the whole
onToken fold irrelevant. -/
theorem tokenFold_absorb (cid mid : String) (tokens : List String) (acc : String)
    (s : ChatState) (c2 : String) (md : MessageMetadata) :
    updateMessage cid mid { content := some c2, metadata := some md }
      ((tokens.foldl
        (fun acc tok =>
          let t := acc.1 ++ tok
          (t, updateMessage cid mid { content := some t } acc.2))
        (acc, s)).2)
      = updateMessage cid mid { content := some c2, metadata := some md } s := by
  rw [tokenFold_run]
  by_cases h : tokens = []
  · simp [h]
  · simp only [h, if_neg, reduceCtorEq, ite_false]
    exact updateMessage_absorb _ _ _ _ _ (fun m => applyUpdate_full _ _ _ m)

/-- A store operation of the kind the messageCount invariant ranges
over: create a conversation, add a message, delete a message. Fresh ids
and timestamps are carried by the operation. -/
inductive StoreOp
  | create (id userId : String) (now : ℕ) (title : Option String)
  | add (conversationId mid : String) (now : ℕ) (data : MessageData)
  | del (conversationId mid : String)
deriving Repr

/-- Interpretation of one store operation. -/
def applyOp (s : ChatState) : StoreOp → ChatState
  | .create id userId now title => createConversation id userId now title s
  | .add conversationId mid now data => addMessage conversationId mid now data s
  | .del conversationId mid => deleteMessage conversationId mid s

/-- Interpretation of an operation sequence, first to last. -/
def applyOps (ops : List StoreOp) (s : ChatState) : ChatState :=
  ops.foldl applyOp s

/-- The invariant of claim C9: every conversation's messageCount equals
the length of its message list. -/
def messageCountConsistent (s : ChatState) : Prop :=
  ∀ c ∈ s.conversations, c.messageCount = c.messages.length

/-- Membership after updateFirst comes from the original list, either
untouched or through the update function. -/
theorem mem_updateFirst {p : α → Bool} {f : α → α} :
    ∀ {l : List α} {x : α}, x ∈ updateFirst p f l → x ∈ l ∨ ∃ a ∈ l, x = f a := by
  intro l
  induction l with
  | nil => intro x hx; simp [updateFirst] at hx
  | cons a rest ih =>
    intro x hx
    by_cases hp : p a
    · rw [updateFirst, if_pos hp] at hx
      rcases List.mem_cons.mp hx with h | h
      · exact Or.inr ⟨a, List.mem_cons_self a rest, h⟩
      · exact Or.inl (List.mem_cons_of_mem a h)
    · rw [updateFirst, if_neg hp] at hx
      rcases List.mem_cons.mp hx with h | h
      · exact Or.inl (h ▸ List.mem_cons_self a rest)
      · rcases ih h with h1 | ⟨b, hb, h2⟩
        · exact Or.inl (List.mem_cons_of_mem a h1)
        · exact Or.inr ⟨b, List.mem_cons_of_mem a hb, h2⟩

/-- convAddMessage restores the count equation on its output. -/
theorem convAddMessage_count (mid : String) (now : ℕ) (data : MessageData) (c : Conversation) :
    (convAddMessage mid now data c).messageCount
      = (convAddMessage mid now data c).messages.length := by
  simp only [convAddMessage]
  split
  · split
    · split <;> split <;> rfl
    · split <;> rfl
  · split <;> rfl

/-- convDeleteMessage preserves the count equation. -/
theorem convDeleteMessage_count (mid : String) (c : Conversation)
    (h : c.messageCount = c.messages.length) :
    (convDeleteMessage mid c).messageCount = (convDeleteMessage mid c).messages.length := by
  unfold convDeleteMessage
  split <;> simp [h]

/-- Every single store operation preserves the count invariant. -/
theorem applyOp_consistent (s : ChatState) (op : StoreOp)
    (h : messageCountConsistent s) : messageCountConsistent (applyOp s op) := by
  cases op with
  | create id userId now title =>
    intro c hc
    simp only [applyOp, createConversation, List.mem_cons] at hc
    rcases hc with rfl | hc
    · rfl
    · exact h c hc
  | add conversationId mid now data =>
    intro c hc
    simp only [applyOp, addMessage] at hc
    rcases mem_updateFirst hc with hmem | ⟨a, _, rfl⟩
    · exact h c hmem
    · exact convAddMessage_count mid now data a
  | del conversationId mid =>
    intro c hc
    simp only [applyOp, deleteMessage] at hc
    rcases mem_updateFirst hc with hmem | ⟨a, ha, rfl⟩
    · exact h c hmem
    · exact convDeleteMessage_count mid a (h a ha)

/-- Operation sequences preserve the count invariant. -/
theorem applyOps_consistent (ops : List StoreOp) :
    ∀ s : ChatState, messageCountConsistent s → messageCountConsistent (applyOps ops s) := by
  induction ops with
  | nil => intro s h; exact h
  | cons op rest ih =>
    intro s h
    exact ih (applyOp s op) (applyOp_consistent s op h)

/-- C9: for every conversation and every sequence of store operations
(create conversation, add message, delete message) starting from the
empty store, the conversation's messageCount field equals the length of
its ordered message list after each operation. -/
theorem messageCount_invariant (ops : List StoreOp) :
    messageCountConsistent (applyOps ops initialChatState) :=
  applyOps_consistent ops initialChatState (by intro c hc; exact absurd hc (by simp [initialChatState]))

/-- C9 witness: the invariant evaluated on a concrete run that creates
a conversation, adds two messages and deletes one. -/
theorem messageCount_invariant_witness :
    messageCountConsistent (applyOps
      [.create "c1" "u1" 0 none,
       .add "c1" "m1" 1 { role := Role.user, content := "hello" },
       .add "c1" "m2" 2 { role := Role.assistant, content := "hi there" },
       .del "c1" "m1"] initialChatState) :=
  messageCount_invariant
    [.create "c1" "u1" 0 none,
     .add "c1" "m1" 1 { role := Role.user, content := "hello" },
     .add "c1" "m2" 2 { role := Role.assistant, content := "hi there" },
     .del "c1" "m1"]

/-- Under distinct conversation ids, splicing the first match equals
filtering the id out. -/
theorem spliceFirst_eq_filter (id : String) :
    ∀ l : List Conversation, (l.map Conversation.id).Nodup →
      spliceFirst (fun c => c.id == id) l = l.filter (fun c => !(c.id == id)) := by
  intro l
  induction l with
  | nil => intro _; rfl
  | cons a rest ih =>
    intro hnd
    simp only [List.map_cons, List.nodup_cons] at hnd
    by_cases hp : a.id == id
    · have ha : a.id = id := by simpa using hp
      have hrest : ∀ c ∈ rest, (!(c.id == id)) = true := by
        intro c hc
        have hne : c.id ≠ id := by
          intro hcc
          exact hnd.1 (by rw [ha, ← hcc]; exact List.mem_map_of_mem Conversation.id hc)
        simp [hne]
      simp [spliceFirst, hp, List.filter_cons, List.filter_eq_self.mpr hrest]
    · simp [spliceFirst, hp, List.filter_cons, ih hnd.2]

/-- C10: deleteConversation removes exactly the conversation with the
given id if present; when the deleted conversation was active the first
remaining conversation (or null) becomes active, and a different active
conversation stays active. Stated for well-formed states: distinct
conversation ids and an active id that exists. -/
theorem deleteConversation_spec (s : ChatState) (id : String)
    (hnd : (s.conversations.map Conversation.id).Nodup)
    (_hactive : ∀ a, s.activeConversationId = some a → a ∈ s.conversations.map Conversation.id) :
    (deleteConversation id s).conversations = s.conversations.filter (fun c => !(c.id == id))
    ∧ (deleteConversation id s).activeConversationId
        = (if s.activeConversationId = some id
           then (s.conversations.filter (fun c => !(c.id == id))).head?.map Conversation.id
           else s.activeConversationId)
    ∧ (deleteConversation id s).isGenerating = s.isGenerating
    ∧ (deleteConversation id s).error = s.error := by
  have hsf := spliceFirst_eq_filter id s.conversations hnd
  refine ⟨?_, ?_, rfl, rfl⟩
  · simp [deleteConversation, hsf]
  · simp only [deleteConversation, hsf]

/-- C10 witness: deleting the active conversation of a two-conversation
store activates the remaining one. -/
theorem deleteConversation_spec_witness :
    (deleteConversation "a"
      { conversations :=
          [{ id := "a", userId := "u", title := "t1", createdAt := 0, updatedAt := 0,
             messageCount := 0, toolsUsed := [], isDeepResearch := false, messages := [] },
           { id := "b", userId := "u", title := "t2", createdAt := 1, updatedAt := 1,
             messageCount := 0, toolsUsed := [], isDeepResearch := false, messages := [] }],
        activeConversationId := some "a", isGenerating := false, error := none }).conversations
      = [{ id := "b", userId := "u", title := "t2", createdAt := 1, updatedAt := 1,
           messageCount := 0, toolsUsed := [], isDeepResearch := false, messages := [] }]
    ∧ (deleteConversation "a"
      { conversations :=
          [{ id := "a", userId := "u", title := "t1", createdAt := 0, updatedAt := 0,
             messageCount := 0, toolsUsed := [], isDeepResearch := false, messages := [] },
           { id := "b", userId := "u", title := "t2", createdAt := 1, updatedAt := 1,
             messageCount := 0, toolsUsed := [], isDeepResearch := false, messages := [] }],
        activeConversationId := some "a", isGenerating := false, error := none }).activeConversationId
      = some "b" := by
  have h := deleteConversation_spec
    { conversations :=
        [{ id := "a", userId := "u", title := "t1", createdAt := 0, updatedAt := 0,
           messageCount := 0, toolsUsed := [], isDeepResearch := false, messages := [] },
         { id := "b", userId := "u", title := "t2", createdAt := 1, updatedAt := 1,
           messageCount := 0, toolsUsed := [], isDeepResearch := false, messages := [] }],
      activeConversationId := some "a", isGenerating := false, error := none }
    "a" (by decide) (by decide)
  refine ⟨?_, ?_⟩
  · rw [h.1]; decide
  · rw [h.2.1]; decide

/-- Sampling configuration used by concrete runs below. -/
def sampleSettings : SettingsState :=
  { systemPrompt := "", temperature := 7/10, topP := 19/20 }

/-- Fresh ids used by concrete runs below. -/
def sampleIds : SendIds :=
  { conv := "conv-1", userMsg := "msg-u", assistantMsg := "msg-a", errMsg := "msg-e" }

/-- C2 counterexample: dispatching an unregistered tool name throws the
Unknown tool error rather than returning any structured result, so the
dispatch boundary can raise. -/
theorem executeToolCall_unknown_throws :
    executeToolCall defaultToolEnv "frobnicate" [] = .error "Unknown tool: frobnicate"
    ∧ exceptOk (executeToolCall defaultToolEnv "frobnicate" []) = false := by
  constructor <;> rfl

/-- C2 (amended): for a registered tool name the dispatch returns the
structured handler result; for any other name it throws an Error whose
message names the unknown tool, instead of yielding a structured
UnknownTool failure result. -/
theorem executeToolCall_dispatch (env : ToolEnv) (name : String) (args : Args) :
    executeToolCall env name args =
      if name ∈ registeredToolNames then .ok (runHandler env name args)
      else .error ("Unknown tool: " ++ name) :=
  executeToolCall_eq env name args

/-- C7: a submission whose text trims to empty returns before any state
transition: no message is created anywhere and no conversation's
updatedAt changes, because the store is returned unchanged. -/
theorem emptySubmission_noop (env : ToolEnv) (cfg : SettingsState) (ids : SendIds)
    (userId : String) (now elapsed : ℕ) (script : List Round) (content : String)
    (s : ChatState) (h : jsTrim content = "") :
    handleSendMessage env cfg ids userId now elapsed script content s = s := by
  unfold handleSendMessage
  simp [h]

/-- C7 witness: a whitespace-only submission leaves the empty store
untouched. -/
theorem emptySubmission_noop_witness :
    handleSendMessage defaultToolEnv sampleSettings sampleIds "" 0 0 [] "   " initialChatState
      = initialChatState :=
  emptySubmission_noop defaultToolEnv sampleSettings sampleIds "" 0 0 [] "   "
    initialChatState (by decide)

/-- C8 counterexample: a configured top-p of zero is replaced by 0.95
in the Gemini generation config, and the Groq request carries no top-p
field at all, so the sampling values are not forwarded verbatim for
both providers. -/
theorem samplingForwarding_counterexample :
    (geminiGenerationConfig { systemPrompt := "", temperature := 7/10, topP := 0 }
        none none).topP = 0.95
    ∧ ((0.95 : ℚ) ≠ 0)
    ∧ (groqInitialRequest { systemPrompt := "", temperature := 7/10, topP := 19/20 } []).topP
        = none := by
  refine ⟨by norm_num [geminiGenerationConfig], by norm_num, rfl⟩

/-- C8 (amended): temperature is forwarded verbatim into the Gemini
generation config and the initial Groq request; the Gemini top-p equals
the configured value only when that value is non-zero (zero is replaced
by 0.95); Groq requests never carry a top-p, and Groq follow-up
requests omit the temperature as well. -/
theorem samplingForwarding (store : SettingsState) (msgs : List GMsg) :
    (geminiGenerationConfig store none none).temperature = store.temperature
    ∧ (store.topP ≠ 0 → (geminiGenerationConfig store none none).topP = store.topP)
    ∧ (store.topP = 0 → (geminiGenerationConfig store none none).topP = 0.95)
    ∧ (groqInitialRequest store msgs).temperature = some store.temperature
    ∧ (groqInitialRequest store msgs).topP = none
    ∧ (groqFollowUpRequest msgs).temperature = none
    ∧ (groqFollowUpRequest msgs).topP = none := by
  refine ⟨rfl, fun h => ?_, fun h => ?_, rfl, rfl, rfl, rfl⟩
  · simp [geminiGenerationConfig, h]
  · simp [geminiGenerationConfig, h]

/-- C8 witness: at the sample settings the non-zero top-p is forwarded
unchanged to Gemini. -/
theorem samplingForwarding_witness :
    (geminiGenerationConfig sampleSettings none none).topP = sampleSettings.topP := by
  have h := samplingForwarding sampleSettings []
  exact h.2.1 (by norm_num [sampleSettings])

/-- A calculator call used to script looping model behaviour. -/
def loopCall : ToolCallReq :=
  { id := "call-1", name := "calculate", arguments := [("expression", "1+1")] }

/-- A response round that issues one tool call and no text. -/
def loopRound : Round :=
  { deltas := [], toolCalls := [loopCall], finishReason := some "tool_calls" }

/-- A closing response round: text, no tool calls. -/
def doneRound : Round :=
  { deltas := ["done"], toolCalls := [], finishReason := some "stop" }

/-- Flattening replicated singletons replicates the element. -/
theorem flatten_replicate_singleton (a : α) :
    ∀ n : ℕ, (List.replicate n [a]).flatten = List.replicate n a := by
  intro n
  induction n with
  | zero => rfl
  | succ k ih => simp [List.replicate_succ, ih]

/-- Behaviour of the Groq client when the model issues tool calls for n
consecutive rounds: helper shared by the C1 theorems. -/
theorem groqSendMessage_replicate (env : ToolEnv) (cfg : SettingsState) (msgs : List GMsg)
    (n : ℕ) :
    (groqSendMessage env cfg msgs (List.replicate n loopRound ++ [doneRound])).result
      = .ok { text := "done",
              toolCalls := List.replicate n (execOf env loopCall),
              finishReason := some "stop" } := by
  have h := groqSendMessage_spec env cfg msgs (List.replicate n loopRound) doneRound []
    (by intro r hr; rw [List.eq_of_mem_replicate hr]; simp [loopRound])
    (by
      intro r hr tc htc
      rw [List.eq_of_mem_replicate hr] at htc
      have heq : tc = loopCall := by simpa [loopRound] using htc
      rw [heq]
      decide)
    rfl
  rw [h.2.2.2]
  have hflat : ((List.replicate n loopRound).map Round.toolCalls).flatten
      = List.replicate n loopCall := by
    rw [List.map_replicate]
    show (List.replicate n [loopCall]).flatten = _
    exact flatten_replicate_singleton loopCall n
  have hfr : (List.replicate n loopRound ++ [doneRound]).foldl frStep none = some "stop" := by
    rw [List.foldl_append]
    rfl
  rw [hflat, hfr, List.map_replicate]
  rfl

/-- C1 counterexample: a model that issues tool calls in 64 consecutive
rounds is followed to completion — all 64 calls execute and the turn
resolves normally; no iteration cap fires, no transition to a failed
state, and no ToolLoopExceeded error exists anywhere in the client. -/
theorem toolLoop_uncapped_counterexample :
    (groqSendMessage defaultToolEnv sampleSettings
        [{ role := Role.user, content := "loop" }]
        (List.replicate 64 loopRound ++ [doneRound])).result
      = .ok { text := "done",
              toolCalls := List.replicate 64 (execOf defaultToolEnv loopCall),
              finishReason := some "stop" } :=
  groqSendMessage_replicate defaultToolEnv sampleSettings
    [{ role := Role.user, content := "loop" }] 64

/-- C1 (amended): the ExecutingTools and AwaitingModel cycle of the
Groq client has no iteration cap at all: for every n, a turn in which
the model issues tool calls for n consecutive rounds completes normally
with every call executed, and the loop terminates exactly when a
response carries no tool calls — there is no Failed transition and no
ToolLoopExceeded error. -/
theorem toolLoop_uncapped (env : ToolEnv) (cfg : SettingsState) (msgs : List GMsg) (n : ℕ) :
    (groqSendMessage env cfg msgs (List.replicate n loopRound ++ [doneRound])).result
      = .ok { text := "done",
              toolCalls := List.replicate n (execOf env loopCall),
              finishReason := some "stop" } :=
  groqSendMessage_replicate env cfg msgs n

/-- C4 (amended): in a streamed turn with no tool calls, the finalized
assistant message content equals the exact in-order concatenation of
the emitted deltas whenever that concatenation is non-empty; an
entirely empty stream is finalized with the fixed empty-response notice
instead. Stated for a fresh conversation (no active id) and distinct
generated message ids. -/
theorem noToolTurn_finalContent (env : ToolEnv) (cfg : SettingsState) (ids : SendIds)
    (userId : String) (now elapsed : ℕ) (deltas : List String) (fr : Option String)
    (content : String) (s : ChatState)
    (hc : ¬jsTrim content = "") (ha : s.activeConversationId = none)
    (hid : ids.userMsg ≠ ids.assistantMsg) :
    handleSendMessage env cfg ids userId now elapsed
        [{ deltas := deltas, toolCalls := [], finishReason := fr }] content s
      = { conversations :=
            { id := ids.conv, userId := userId, title := autoTitle (jsTrim content),
              createdAt := now, updatedAt := now, messageCount := 2, toolsUsed := [],
              isDeepResearch := false,
              messages :=
                [{ id := ids.userMsg, role := Role.user, content := jsTrim content,
                   timestamp := now },
                 { id := ids.assistantMsg, role := Role.assistant,
                   content := if String.join deltas = "" then fallbackNotice
                     else String.join deltas,
                   timestamp := now,
                   metadata := some { toolName := none, toolResults := some [],
                                      thinkingTime := some elapsed,
                                      isStreaming := some false } }] }
            :: s.conversations,
          activeConversationId := some ids.conv, isGenerating := false, error := none } := by
  have hbeq : (ids.userMsg == ids.assistantMsg) = false := by
    exact beq_eq_false_iff_ne.mpr hid
  simp only [handleSendMessage, ha, hc, if_false, ite_false]
  simp only [groqSendMessage, groqLoop, groqFullMessages, List.append_nil]
  rw [tokenFold_absorb]
  simp only [createConversation, setGenerating, setError, addMessage, convAddMessage,
    updateMessage, convUpdate, updateFirst, applyUpdate, List.find?, historyMsg,
    beq_self_eq_true, hbeq, if_true, if_false, List.map_nil, List.nil_append,
    List.length_append, List.length_cons, List.length_nil, List.append_nil]
  by_cases h : String.join deltas = "" <;>
    simp [finalizeContent, h, autoTitle, updateFirst, convUpdate, applyUpdate, hbeq,
      beq_self_eq_true]

/-- C4 witness: a fresh-conversation turn streaming two deltas is
finalized with their concatenation. -/
theorem noToolTurn_finalContent_witness :
    handleSendMessage defaultToolEnv sampleSettings sampleIds "u" 3 7
        [{ deltas := ["Hel", "lo"], toolCalls := [], finishReason := some "stop" }] "hi"
        initialChatState
      = { conversations :=
            [{ id := sampleIds.conv, userId := "u", title := autoTitle (jsTrim "hi"),
               createdAt := 3, updatedAt := 3, messageCount := 2, toolsUsed := [],
               isDeepResearch := false,
               messages :=
                 [{ id := sampleIds.userMsg, role := Role.user, content := jsTrim "hi",
                    timestamp := 3 },
                  { id := sampleIds.assistantMsg, role := Role.assistant,
                    content := if String.join ["Hel", "lo"] = "" then fallbackNotice
                      else String.join ["Hel", "lo"],
                    timestamp := 3,
                    metadata := some { toolName := none, toolResults := some [],
                                       thinkingTime := some 7,
                                       isStreaming := some false } }] }],
          activeConversationId := some sampleIds.conv, isGenerating := false, error := none } :=
  noToolTurn_finalContent defaultToolEnv sampleSettings sampleIds "u" 3 7 ["Hel", "lo"]
    (some "stop") "hi" initialChatState (by decide) rfl (by decide)

/-- C4 counterexample: a streamed no-tool-call turn that delivers no
deltas is finalized with the fixed empty-response notice, which differs
from the (empty) concatenation of the emitted deltas. -/
theorem noToolTurn_empty_counterexample :
    ((handleSendMessage defaultToolEnv sampleSettings sampleIds "" 0 0
        [{ deltas := [], toolCalls := [], finishReason := some "stop" }] "hi"
        initialChatState).conversations.map fun c => c.messages.map Message.content)
      = [["hi", fallbackNotice]]
    ∧ String.join (groqSendMessage defaultToolEnv sampleSettings
        [{ role := Role.user, content := "hi" }]
        [{ deltas := [], toolCalls := [], finishReason := some "stop" }]).tokens = ""
    ∧ fallbackNotice ≠ "" := by decide

/-- A response round that streams the text a and then issues one
registered tool call. -/
def textToolRound : Round :=
  { deltas := ["a"], toolCalls := [loopCall], finishReason := none }

/-- The closing round after the tool sub-round: streams the text b. -/
def textDoneRound : Round :=
  { deltas := ["b"], toolCalls := [], finishReason := some "stop" }

/-- C3 counterexample: in a turn with one tool sub-round, both deltas a
and b are delivered to the UI in order, yet the finalized assistant
content is b alone — the delta streamed before the tool call is dropped
from the finalized message, so the finalized content differs from the
full concatenation ab. -/
theorem finalizedContent_counterexample :
    ((handleSendMessage defaultToolEnv sampleSettings sampleIds "" 0 0
        [textToolRound, textDoneRound] "hi" initialChatState).conversations.map
          fun c => c.messages.map Message.content)
      = [["hi", "b"]]
    ∧ String.join (groqSendMessage defaultToolEnv sampleSettings
        [{ role := Role.user, content := "hi" }] [textToolRound, textDoneRound]).tokens = "ab"
    ∧ ("b" : String) ≠ "ab" := by decide

/-- C3 (amended): across tool sub-rounds every delta is delivered to
the UI in order, but the client resets its text buffer at each
sub-round, so the result text — and with it the finalized assistant
content whenever that text is non-empty — is the text of the final
sub-round only, not the concatenation of all deltas of the turn. -/
theorem finalizedContent_lastSubRound (env : ToolEnv) (cfg : SettingsState) (msgs : List GMsg)
    (rs : List Round) (rlast : Round) (rest : List Round)
    (h1 : ∀ r ∈ rs, r.toolCalls ≠ [])
    (h2 : ∀ r ∈ rs, ∀ tc ∈ r.toolCalls, tc.name ∈ registeredToolNames)
    (h3 : rlast.toolCalls = []) :
    ∃ res, (groqSendMessage env cfg msgs (rs ++ rlast :: rest)).result = .ok res
      ∧ (groqSendMessage env cfg msgs (rs ++ rlast :: rest)).tokens
          = (rs.map Round.deltas).flatten ++ rlast.deltas
      ∧ res.text = String.join rlast.deltas
      ∧ (String.join rlast.deltas ≠ "" →
          finalizeContent res.text
            (String.join (groqSendMessage env cfg msgs (rs ++ rlast :: rest)).tokens)
          = String.join rlast.deltas) := by
  have h := groqSendMessage_spec env cfg msgs rs rlast rest h1 h2 h3
  refine ⟨_, h.2.2.2, h.1, rfl, fun hne => ?_⟩
  simp [finalizeContent, hne]

/-- C3 witness: the amended characterization evaluated on the concrete
two-round script. -/
theorem finalizedContent_lastSubRound_witness :
    ∃ res, (groqSendMessage defaultToolEnv sampleSettings
        [{ role := Role.user, content := "hi" }] ([textToolRound] ++ textDoneRound :: [])).result
          = .ok res
      ∧ (groqSendMessage defaultToolEnv sampleSettings
          [{ role := Role.user, content := "hi" }]
          ([textToolRound] ++ textDoneRound :: [])).tokens
          = ([textToolRound].map Round.deltas).flatten ++ textDoneRound.deltas
      ∧ res.text = String.join textDoneRound.deltas
      ∧ (String.join textDoneRound.deltas ≠ "" →
          finalizeContent res.text
            (String.join (groqSendMessage defaultToolEnv sampleSettings
              [{ role := Role.user, content := "hi" }]
              ([textToolRound] ++ textDoneRound :: [])).tokens)
          = String.join textDoneRound.deltas) :=
  finalizedContent_lastSubRound defaultToolEnv sampleSettings
    [{ role := Role.user, content := "hi" }] [textToolRound] textDoneRound []
    (by decide) (by decide) rfl

/-- String append with the empty prefix. -/
theorem empty_append_str (t : String) : "" ++ t = t := rfl

/-- C5 (amended): when the provider call of a turn throws, a separate
assistant message carrying the error annotation is appended and the
store error is set, but the in-progress streaming placeholder is not
finalized: it keeps its partial streamed content and its isStreaming
flag stays true. Stated for a fresh conversation and distinct generated
message ids. -/
theorem errorTurn_state (env : ToolEnv) (cfg : SettingsState) (ids : SendIds)
    (userId : String) (now elapsed : ℕ) (script : List Round) (content : String)
    (s : ChatState) (e : String)
    (hc : ¬jsTrim content = "") (ha : s.activeConversationId = none)
    (hid : ids.userMsg ≠ ids.assistantMsg)
    (he : (groqSendMessage env cfg [{ role := Role.user, content := jsTrim content }]
            script).result = .error e) :
    handleSendMessage env cfg ids userId now elapsed script content s
      = { conversations :=
            { id := ids.conv, userId := userId, title := autoTitle (jsTrim content),
              createdAt := now, updatedAt := now, messageCount := 3, toolsUsed := [],
              isDeepResearch := false,
              messages :=
                [{ id := ids.userMsg, role := Role.user, content := jsTrim content,
                   timestamp := now },
                 { id := ids.assistantMsg, role := Role.assistant,
                   content := String.join (groqSendMessage env cfg
                     [{ role := Role.user, content := jsTrim content }] script).tokens,
                   timestamp := now, metadata := some { isStreaming := some true } },
                 { id := ids.errMsg, role := Role.assistant,
                   content := "Error: " ++ e ++ ". Please check your API keys and connection.",
                   timestamp := now, metadata := some { error := some e } }] }
            :: s.conversations,
          activeConversationId := some ids.conv, isGenerating := false, error := some e } := by
  have hbeq : (ids.userMsg == ids.assistantMsg) = false := beq_eq_false_iff_ne.mpr hid
  simp only [handleSendMessage, ha, hc, if_false, ite_false, List.find?, createConversation,
    beq_self_eq_true, List.map_nil, historyMsg, List.nil_append]
  rw [tokenFold_run]
  simp only [he]
  by_cases htok : (groqSendMessage env cfg [{ role := Role.user, content := jsTrim content }]
      script).tokens = []
  · simp [htok, setError, setGenerating, addMessage, convAddMessage, updateFirst,
      applyUpdate, beq_self_eq_true, hbeq, autoTitle, String.join]
  · simp [htok, setError, setGenerating, addMessage, convAddMessage, updateMessage,
      convUpdate, updateFirst, applyUpdate, beq_self_eq_true, hbeq, empty_append_str,
      autoTitle]

/-- C5 witness: the amended characterization on a concrete turn whose
only round requests an unregistered tool, which makes the provider call
throw after one streamed delta. -/
theorem errorTurn_state_witness :
    handleSendMessage defaultToolEnv sampleSettings sampleIds "u" 4 9
        [{ deltas := ["Let me check."],
           toolCalls := [{ id := "c1", name := "frobnicate", arguments := [] }],
           finishReason := none }] "hi" initialChatState
      = { conversations :=
            [{ id := sampleIds.conv, userId := "u", title := autoTitle (jsTrim "hi"),
               createdAt := 4, updatedAt := 4, messageCount := 3, toolsUsed := [],
               isDeepResearch := false,
               messages :=
                 [{ id := sampleIds.userMsg, role := Role.user, content := jsTrim "hi",
                    timestamp := 4 },
                  { id := sampleIds.assistantMsg, role := Role.assistant,
                    content := String.join (groqSendMessage defaultToolEnv sampleSettings
                      [{ role := Role.user, content := jsTrim "hi" }]
                      [{ deltas := ["Let me check."],
                         toolCalls := [{ id := "c1", name := "frobnicate", arguments := [] }],
                         finishReason := none }]).tokens,
                    timestamp := 4, metadata := some { isStreaming := some true } },
                  { id := sampleIds.errMsg, role := Role.assistant,
                    content := "Error: " ++ "Unknown tool: frobnicate"
                      ++ ". Please check your API keys and connection.",
                    timestamp := 4,
                    metadata := some { error := some "Unknown tool: frobnicate" } }] }],
          activeConversationId := some sampleIds.conv, isGenerating := false,
          error := some "Unknown tool: frobnicate" } :=
  errorTurn_state defaultToolEnv sampleSettings sampleIds "u" 4 9
    [{ deltas := ["Let me check."],
       toolCalls := [{ id := "c1", name := "frobnicate", arguments := [] }],
       finishReason := none }] "hi" initialChatState "Unknown tool: frobnicate"
    (by decide) rfl (by decide) (by decide)

/-- C5 counterexample: after a fatal turn error the history holds the
user message, the streaming placeholder still flagged isStreaming true
with its partial content and no error annotation, and a separate error
message — so an in-progress message is left with isStreaming true
rather than being finalized. -/
theorem errorTurn_counterexample :
    ((handleSendMessage defaultToolEnv sampleSettings sampleIds "" 0 0
        [{ deltas := ["Let me check."],
           toolCalls := [{ id := "c1", name := "frobnicate", arguments := [] }],
           finishReason := none }] "hi" initialChatState).conversations.map
      fun c => c.messages.map fun m => (m.content, m.metadata))
      = [[("hi", none),
          ("Let me check.", some { isStreaming := some true }),
          ("Error: Unknown tool: frobnicate. Please check your API keys and connection.",
           some { error := some "Unknown tool: frobnicate" })]] := by decide

/-- C6: within a turn, tool-call batches execute strictly sequentially
in the order received — the notification trace lists the calls in
request order — and the collected results are submitted back in that
same order, one block per sub-round for the Groq client and as the
in-order functionResponse parts for the Gemini client. -/
theorem toolExecutionOrder (env : ToolEnv) (cfg : SettingsState) (msgs : List GMsg)
    (rs : List Round) (rlast : Round) (rest : List Round)
    (first followUp : GeminiResponse)
    (h1 : ∀ r ∈ rs, r.toolCalls ≠ [])
    (h2 : ∀ r ∈ rs, ∀ tc ∈ r.toolCalls, tc.name ∈ registeredToolNames)
    (h3 : rlast.toolCalls = [])
    (h4 : ∀ fc ∈ first.functionCalls, fc.1 ∈ registeredToolNames) :
    (groqSendMessage env cfg msgs (rs ++ rlast :: rest)).toolTrace
        = ((rs.map Round.toolCalls).flatten).map (fun tc => (tc.name, tc.arguments))
    ∧ (groqSendMessage env cfg msgs (rs ++ rlast :: rest)).submissions
        = (rs.map Round.toolCalls).map
            (fun l => l.map fun tc => toolMsg tc (runHandler env tc.name tc.arguments))
    ∧ (groqSendMessage env cfg msgs (rs ++ rlast :: rest)).result
        = .ok { text := String.join rlast.deltas,
                toolCalls := ((rs.map Round.toolCalls).flatten).map (execOf env),
                finishReason := (rs ++ [rlast]).foldl frStep none }
    ∧ (geminiSendMessage env first followUp).toolTrace = first.functionCalls
    ∧ (geminiSendMessage env first followUp).submitted
        = first.functionCalls.map (fun fc => (fc.1, runHandler env fc.1 fc.2)) := by
  have hg := groqSendMessage_spec env cfg msgs rs rlast rest h1 h2 h3
  have hgem : (geminiSendMessage env first followUp).toolTrace = first.functionCalls
      ∧ (geminiSendMessage env first followUp).submitted
        = first.functionCalls.map (fun fc => (fc.1, runHandler env fc.1 fc.2)) := by
    cases hfc : first.functionCalls with
    | nil => simp [geminiSendMessage, hfc]
    | cons a l =>
      have hreg : ∀ fc ∈ a :: l, fc.1 ∈ registeredToolNames := by
        rw [← hfc]; exact h4
      simp [geminiSendMessage, hfc, execSeq_spec env (a :: l) hreg, List.map_map]
  exact ⟨hg.2.1, hg.2.2.1, hg.2.2.2, hgem.1, hgem.2⟩

/-- A round issuing two registered tool calls, used as the C6 concrete
instance. -/
def pairToolRound : Round :=
  { deltas := ["t"],
    toolCalls := [{ id := "a1", name := "web_search", arguments := [("query", "x")] },
                  { id := "a2", name := "calculate", arguments := [("expression", "2")] }],
    finishReason := none }

/-- C6 witness: the batch of two calls executes and is submitted in
order for the Groq client, and a Gemini call list is traced and
submitted in order. -/
theorem toolExecutionOrder_witness :
    (groqSendMessage defaultToolEnv sampleSettings [{ role := Role.user, content := "hi" }]
        ([pairToolRound] ++ doneRound :: [])).toolTrace
        = (([pairToolRound].map Round.toolCalls).flatten).map (fun tc => (tc.name, tc.arguments))
    ∧ (groqSendMessage defaultToolEnv sampleSettings [{ role := Role.user, content := "hi" }]
        ([pairToolRound] ++ doneRound :: [])).submissions
        = ([pairToolRound].map Round.toolCalls).map
            (fun l => l.map fun tc => toolMsg tc (runHandler defaultToolEnv tc.name tc.arguments))
    ∧ (groqSendMessage defaultToolEnv sampleSettings [{ role := Role.user, content := "hi" }]
        ([pairToolRound] ++ doneRound :: [])).result
        = .ok { text := String.join doneRound.deltas,
                toolCalls := (([pairToolRound].map Round.toolCalls).flatten).map
                  (execOf defaultToolEnv),
                finishReason := ([pairToolRound] ++ [doneRound]).foldl frStep none }
    ∧ (geminiSendMessage defaultToolEnv
        { text := "", functionCalls := [("get_weather", [("location", "L")])],
          finishReason := none }
        { text := "ok", functionCalls := [], finishReason := some "stop" }).toolTrace
        = [("get_weather", [("location", "L")])]
    ∧ (geminiSendMessage defaultToolEnv
        { text := "", functionCalls := [("get_weather", [("location", "L")])],
          finishReason := none }
        { text := "ok", functionCalls := [], finishReason := some "stop" }).submitted
        = [("get_weather", [("location", "L")])].map
            (fun fc => (fc.1, runHandler defaultToolEnv fc.1 fc.2)) :=
  toolExecutionOrder defaultToolEnv sampleSettings [{ role := Role.user, content := "hi" }]
    [pairToolRound] doneRound []
    { text := "", functionCalls := [("get_weather", [("location", "L")])], finishReason := none }
    { text := "ok", functionCalls := [], finishReason := some "stop" }
    (by decide) (by decide) rfl (by decide)

end ReactChatBot
